import Mathlib

/-!
Verification of the token-dashboard client (zero-given/token_cards).

The development shallowly embeds the decision logic of the frontend:

* `src/frontend/src/components/TokenEventsList.tsx` — filter pipeline
  (`filterTokens`), sort pipeline (`sortTokens`) and the effect that
  combines them (`visibleTokens`);
* `src/frontend/src/components/TokenEventCard.tsx` — risk-scoring engine
  (`calculateMarketScore`, `calculateLiquidityScore`,
  `calculateGrowthScore`, the inline security score and the combined
  weighted score) and the danger / warning / safe classification
  (`getWarningReasons`, `securityLevel`);
* `src/frontend/src/App.tsx` — connection lifecycle: WebSocket event
  handlers, heartbeat protocol, bounded reconnection, message routing
  and the token-refresh handler.

JavaScript numbers are modelled as rationals (`ℚ`); fields that the code
tests against `undefined` are modelled as `Option`; `x || 0` on a numeric
field is modelled as `Option.getD 0`.  Event handlers become pure
transition functions on an explicit state record, returning the next
state together with the list of emitted side effects.
-/

/-- Modelled from the spec: the `TokenRecord` data model (the `Token`
interface lives in `src/frontend/src/types.ts`, which is not part of the
source tree; the fields and their defaults are those used by the
components and described in spec section 3: numeric fields default to 0,
boolean flags default to false when absent from the wire payload). -/
structure Token where
  name : String := ""
  symbol : String := ""
  gpHolderCount : Option ℚ := none
  liq30 : Option ℚ := none
  isHoneypot : Bool := false
  gpIsBlacklisted : Bool := false
  gpIsAntiWhale : Bool := false
  gpIsOpenSource : Bool := false
  gpIsProxy : Bool := false
  gpIsMintable : Bool := false
  gpExternalCall : Bool := false
  gpCannotBuy : Bool := false
  gpCannotSellAll : Bool := false
  gpTradingCooldown : Bool := false
  gpTransferPausable : Bool := false
  gpHiddenOwner : Bool := false
  gpCanTakeBackOwnership : Bool := false
  gpOwnerChangeBalance : Bool := false
  gpAntiWhaleModifiable : Bool := false
  gpSlippageModifiable : Bool := false
  gpBuyTax : ℚ := 0
  gpSellTax : ℚ := 0
  buyGas : Option ℚ := none
  sellGas : Option ℚ := none
  totalScans : Option ℚ := none
  honeypotFailures : Option ℚ := none
  holdersChanged : Bool := false
  liquidityChanged : Bool := false
  ageHours : Option ℚ := none
  creationTime : Option ℚ := none
  safetyScore : Option ℚ := none
deriving DecidableEq

/-- The empty token record: every numeric field absent, every flag false. -/
def emptyToken : Token := {}

/-- Sort keys of the sort pipeline (`FilterState.sortBy` in
TokenEventsList.tsx). -/
inductive SortBy
  | records
  | age
  | creationTime
  | holders
  | liquidity
  | safetyScore
deriving DecidableEq

/-- Sort direction (`FilterState.sortDirection`). -/
inductive SortDirection
  | asc
  | desc
deriving DecidableEq

/-- `FilterState` of TokenEventsList.tsx with its default values (the
color fields are pure presentation and are omitted). -/
structure FilterState where
  minHolders : ℚ := 0
  minLiquidity : ℚ := 0
  hideHoneypots : Bool := false
  showOnlyHoneypots : Bool := false
  hideDanger : Bool := false
  hideWarning : Bool := false
  showOnlySafe : Bool := false
  searchQuery : String := ""
  sortBy : SortBy := .age
  sortDirection : SortDirection := .asc
  maxRecords : Nat := 50
  hideStagnantHolders : Bool := false
  hideStagnantLiquidity : Bool := false
  stagnantRecordCount : ℚ := 10
deriving DecidableEq

/-- Substring test on character lists: JavaScript `String.includes`. -/
def containsSub (pat : List Char) : List Char → Bool
  | [] => pat.isEmpty
  | c :: rest => pat.isPrefixOf (c :: rest) || containsSub pat rest

/-- `s.includes pat` on strings. -/
def strIncludes (s pat : String) : Bool :=
  containsSub pat.toList s.toList

/-- `isDangerous` as computed inside `filterTokens`
(TokenEventsList.tsx lines 128-130):
`isHoneypot || (gpIsBlacklisted && !gpIsAntiWhale)`. -/
def tokenIsDangerous (token : Token) : Bool :=
  token.isHoneypot || (token.gpIsBlacklisted && !token.gpIsAntiWhale)

/-- The disjunction of the warning risk flags tested by `filterTokens`
(TokenEventsList.tsx lines 132-146) and, one reason each, by
`getWarningReasons` in TokenEventCard.tsx. -/
def warningFlags (token : Token) : Bool :=
  !token.gpIsOpenSource ||
  token.gpIsProxy ||
  token.gpIsMintable ||
  token.gpExternalCall ||
  token.gpCannotBuy ||
  token.gpCannotSellAll ||
  token.gpTradingCooldown ||
  token.gpTransferPausable ||
  token.gpHiddenOwner ||
  token.gpCanTakeBackOwnership ||
  token.gpOwnerChangeBalance ||
  decide (token.gpBuyTax > 10) ||
  decide (token.gpSellTax > 10) ||
  (token.gpIsAntiWhale && token.gpAntiWhaleModifiable) ||
  token.gpSlippageModifiable

/-- `hasWarnings` as computed inside `filterTokens`
(TokenEventsList.tsx lines 131-147). -/
def tokenHasWarnings (token : Token) : Bool :=
  !tokenIsDangerous token && warningFlags token

/-- `isSafe` as computed inside `filterTokens` (line 148). -/
def tokenIsSafe (token : Token) : Bool :=
  !tokenIsDangerous token && !tokenHasWarnings token

/-- The per-token predicate of `filterTokens`
(TokenEventsList.tsx lines 125-186), early returns rendered as nested
conditionals in source order. -/
def filterPredicate (filters : FilterState) (token : Token) : Bool :=
  let holderCount := token.gpHolderCount.getD 0
  let liquidity := token.liq30.getD 0
  let isHoneypot := token.isHoneypot
  let isDangerous := tokenIsDangerous token
  let hasWarnings := tokenHasWarnings token
  let isSafe := tokenIsSafe token
  if (filters.searchQuery != "") &&
      !(strIncludes token.name.toLower filters.searchQuery.toLower) &&
      !(strIncludes token.symbol.toLower filters.searchQuery.toLower) then false
  else if holderCount < filters.minHolders then false
  else if liquidity < filters.minLiquidity then false
  else if filters.hideHoneypots && isHoneypot then false
  else if filters.showOnlyHoneypots && !isHoneypot then false
  else if filters.hideDanger && isDangerous then false
  else if filters.hideWarning && hasWarnings then false
  else if filters.showOnlySafe && !isSafe then false
  else if filters.hideStagnantHolders || filters.hideStagnantLiquidity then
    let recordCount := token.totalScans.getD 0
    if filters.stagnantRecordCount ≤ recordCount then
      if filters.hideStagnantHolders && !token.holdersChanged then false
      else if filters.hideStagnantLiquidity && !token.liquidityChanged then false
      else true
    else true
  else true

/-- `filterTokens` (TokenEventsList.tsx lines 120-188): filter then
`slice(0, maxRecords)`. -/
def filterTokens (filters : FilterState) (tokensToFilter : List Token) : List Token :=
  (tokensToFilter.filter (filterPredicate filters)).take filters.maxRecords

/-- The numeric key read by the comparator of `sortTokens`
(TokenEventsList.tsx lines 195-214), one case per sort key. -/
def sortKey (sortBy : SortBy) (t : Token) : ℚ :=
  match sortBy with
  | .records => t.totalScans.getD 0
  | .age => t.ageHours.getD 0
  | .creationTime => t.creationTime.getD 0
  | .holders => t.gpHolderCount.getD 0
  | .liquidity => t.liq30.getD 0
  | .safetyScore => if t.isHoneypot then 0 else t.safetyScore.getD 0

/-- The direction multiplier (line 193): +1 for ascending, -1 for
descending. -/
def dirSign : SortDirection → ℚ
  | .asc => 1
  | .desc => -1

/-- The comparator passed to `Array.sort` (lines 192-215):
`direction * (keyA - keyB)`. -/
def compareTokens (filters : FilterState) (a b : Token) : ℚ :=
  dirSign filters.sortDirection * (sortKey filters.sortBy a - sortKey filters.sortBy b)

/-- `sortTokens` (lines 191-216).  `Array.prototype.sort` with a
consistent comparator is a stable sort, modelled as insertion sort with
the relation "comparator result is not positive". -/
def sortTokens (filters : FilterState) (tokensToSort : List Token) : List Token :=
  tokensToSort.insertionSort (fun a b => compareTokens filters a b ≤ 0)

/-- The effect combining the pipeline (TokenEventsList.tsx lines
219-223): `filtered = filterTokens(tokens); sorted = sortTokens(filtered)`.
The truncation inside `filterTokens` therefore runs before the sort. -/
def visibleTokens (filters : FilterState) (tokens : List Token) : List Token :=
  sortTokens filters (filterTokens filters tokens)

/-- The pipeline as the spec words it (spec 4.3.6): the final visible set
is the first `maxRecords` elements of the full filtered-and-sorted
sequence.  Written from the spec only, for comparison with
`visibleTokens`. -/
def specVisibleTokens (filters : FilterState) (tokens : List Token) : List Token :=
  (sortTokens filters (tokens.filter (filterPredicate filters))).take filters.maxRecords

/-- `calculateLiquidityScore` (TokenEventCard.tsx lines 116-125). -/
def calculateLiquidityScore (liq30 : Option ℚ) : ℚ :=
  match liq30 with
  | none => 0
  | some numLiq =>
    if numLiq > 50000 then 25
    else if numLiq > 25000 then 20
    else if numLiq > 10000 then 15
    else if numLiq > 5000 then 10
    else if numLiq > 1000 then 5
    else 0

/-- `calculateMarketScore` (TokenEventCard.tsx lines 128-133):
`((totalScans - honeypotFailures) / max(totalScans, 1)) * 25`, with 0 for
absent inputs. -/
def calculateMarketScore (totalScans honeypotFailures : Option ℚ) : ℚ :=
  match totalScans, honeypotFailures with
  | some numTotal, some numFailures => ((numTotal - numFailures) / max numTotal 1) * 25
  | _, _ => 0

/-- `calculateGrowthScore` (TokenEventCard.tsx lines 136-145). -/
def calculateGrowthScore (holderCount : Option ℚ) : ℚ :=
  match holderCount with
  | none => 0
  | some numHolders =>
    if numHolders > 100 then 25
    else if numHolders > 50 then 20
    else if numHolders > 25 then 15
    else if numHolders > 10 then 10
    else if numHolders > 5 then 5
    else 0

/-- The Market Behavior sub-score as applied to a record
(TokenEventCard.tsx lines 480 and 540). -/
def tokenMarketScore (t : Token) : ℚ :=
  calculateMarketScore t.totalScans t.honeypotFailures

/-- The Contract Security sub-score (TokenEventCard.tsx lines 495 and
541): `token.gpIsOpenSource ? 25 : 0`. -/
def tokenSecurityScore (t : Token) : ℚ :=
  if t.gpIsOpenSource then 25 else 0

/-- The Liquidity Risk sub-score as applied to a record (lines 510, 542). -/
def tokenLiquidityScore (t : Token) : ℚ :=
  calculateLiquidityScore t.liq30

/-- The Growth Momentum sub-score as applied to a record (lines 524, 543). -/
def tokenGrowthScore (t : Token) : ℚ :=
  calculateGrowthScore t.gpHolderCount

/-- `totalScore` of the Combined Analysis Model (TokenEventCard.tsx
lines 540-552): the weighted sum of the four sub-scores. -/
def totalScore (t : Token) : ℚ :=
  tokenMarketScore t * 0.15 + tokenSecurityScore t * 0.40 +
    tokenLiquidityScore t * 0.25 + tokenGrowthScore t * 0.20

/-- A record is well formed when its honeypot-check failure count is a
count bounded by the total scan count (spec section 3: both are scan
bookkeeping counts). -/
def WellFormedScans (t : Token) : Prop :=
  match t.totalScans, t.honeypotFailures with
  | some numTotal, some numFailures => 0 ≤ numFailures ∧ numFailures ≤ numTotal
  | _, _ => True

instance (t : Token) : Decidable (WellFormedScans t) := by
  unfold WellFormedScans
  exact match t.totalScans, t.honeypotFailures with
  | some _, some _ => inferInstanceAs (Decidable (_ ∧ _))
  | some _, none => inferInstanceAs (Decidable True)
  | none, some _ => inferInstanceAs (Decidable True)
  | none, none => inferInstanceAs (Decidable True)

/-- The three-way classification shown on the card. -/
inductive SecurityLevel
  | safe
  | warning
  | danger
deriving DecidableEq

/-- `getWarningReasons` (TokenEventCard.tsx lines 34-67): each `push`
becomes one appended singleton. -/
def getWarningReasons (token : Token) : List String :=
  (if token.isHoneypot then ["TOKEN IS A HONEYPOT - Cannot sell tokens"] else []) ++
  (if token.gpIsBlacklisted && !token.gpIsAntiWhale then ["Token is blacklisted (not anti-whale)"] else []) ++
  (if !token.gpIsOpenSource then ["Contract is not open source"] else []) ++
  (if token.gpIsProxy then ["Contract uses proxy pattern"] else []) ++
  (if token.gpIsMintable then ["Token is mintable"] else []) ++
  (if token.gpExternalCall then ["Contract has external calls"] else []) ++
  (if token.gpCannotBuy then ["Buying is restricted"] else []) ++
  (if token.gpCannotSellAll then ["Cannot sell all tokens"] else []) ++
  (if token.gpTradingCooldown then ["Trading cooldown enabled"] else []) ++
  (if token.gpTransferPausable then ["Transfers can be paused"] else []) ++
  (if token.gpHiddenOwner then ["Hidden owner detected"] else []) ++
  (if token.gpCanTakeBackOwnership then ["Ownership can be taken back"] else []) ++
  (if token.gpOwnerChangeBalance then ["Owner can change balances"] else []) ++
  (if decide (token.gpBuyTax > 10) then ["High buy tax: " ++ toString token.gpBuyTax ++ "%"] else []) ++
  (if decide (token.gpSellTax > 10) then ["High sell tax: " ++ toString token.gpSellTax ++ "%"] else []) ++
  (if token.gpIsAntiWhale && token.gpAntiWhaleModifiable then ["Modifiable anti-whale mechanism"] else []) ++
  (if token.gpSlippageModifiable then ["Modifiable slippage settings"] else [])

/-- `securityLevel` (TokenEventCard.tsx lines 70-72): danger on honeypot
or dangerous blacklist, else warning when any reason was collected, else
safe. -/
def securityLevel (token : Token) : SecurityLevel :=
  if token.isHoneypot || (token.gpIsBlacklisted && !token.gpIsAntiWhale) then .danger
  else if (getWarningReasons token).length > 0 then .warning
  else .safe

/-! ### Connection lifecycle (App.tsx)

The WebSocket event handlers of `App.tsx` are embedded as transition
functions over an explicit `AppState`.  Pending timers are carried as
`Option` fields holding the delay they were armed with; a timer firing
is its own transition.  Side effects that cross the asynchronous
boundary (sending a PING frame, calling `ws.close()`, issuing the
HTTP refresh) are emitted as an `Effect` list. -/

/-- Connection lifecycle constants (App.tsx lines 23-26). -/
def MAX_RETRIES : Nat := 5

/-- Reconnect delay in milliseconds (App.tsx line 24). -/
def RETRY_INTERVAL : Nat := 5000

/-- Heartbeat probe period in milliseconds (App.tsx line 25). -/
def HEARTBEAT_INTERVAL : Nat := 15000

/-- Heartbeat reply budget in milliseconds (App.tsx line 26). -/
def HEARTBEAT_TIMEOUT : Int := 5000

/-- Ready state of the socket held in `wsRef` (only the states the code
distinguishes: `readyState === WebSocket.OPEN` or not yet open). -/
inductive WsState
  | connecting
  | opened
deriving DecidableEq

/-- Side effects emitted by the handlers. -/
inductive Effect
  | sendPing (timestamp : Int)
  | closeSocket
  | fetchTokens
deriving DecidableEq

/-- The mutable context of `App` relevant to the connection lifecycle:
React state (`retryCount`, `error`, `isConnected`) and the refs
(`wsRef`, the three timer refs, `isReconnecting`,
`lastHeartbeatResponse`). -/
structure AppState where
  retryCount : Nat := 0
  error : Option String := none
  isConnected : Bool := false
  ws : Option WsState := none
  reconnectTimer : Option Nat := none
  heartbeatInterval : Option Nat := none
  heartbeatTimeout : Option Int := none
  isReconnecting : Bool := false
  lastHeartbeatResponse : Int := 0
deriving DecidableEq

/-- The initial state of the component. -/
def initialAppState : AppState := {}

/-- `clearReconnectTimeout` (App.tsx lines 66-71). -/
def clearReconnectTimeout (s : AppState) : AppState :=
  { s with reconnectTimer := none }

/-- `clearHeartbeatInterval` (App.tsx lines 73-82): cancels both the
interval and the pending pong timeout. -/
def clearHeartbeatInterval (s : AppState) : AppState :=
  { s with heartbeatInterval := none, heartbeatTimeout := none }

/-- `sendHeartbeat` (App.tsx lines 87-100): when the socket is open,
send a PING carrying the current timestamp and arm the pong timeout. -/
def sendHeartbeat (now : Int) (s : AppState) : AppState × List Effect :=
  if s.ws = some .opened then
    ({ s with heartbeatTimeout := some HEARTBEAT_TIMEOUT }, [.sendPing now])
  else (s, [])

/-- `startHeartbeat` (App.tsx lines 84-105): clear any heartbeat timers,
arm the interval and send the initial probe. -/
def startHeartbeat (now : Int) (s : AppState) : AppState × List Effect :=
  let s := clearHeartbeatInterval s
  let s := { s with heartbeatInterval := some HEARTBEAT_INTERVAL }
  sendHeartbeat now s

/-- One tick of the heartbeat interval timer (the `setInterval`
callback, App.tsx line 102). -/
def heartbeatIntervalTick (now : Int) (s : AppState) : AppState × List Effect :=
  sendHeartbeat now s

/-- The pong-timeout callback (App.tsx lines 92-98): the timer has
fired, so it is no longer pending; the socket is force-closed exactly
when the elapsed time since the last seen message exceeds
`HEARTBEAT_TIMEOUT`. -/
def heartbeatTimeoutFire (now : Int) (s : AppState) : AppState × List Effect :=
  let s := { s with heartbeatTimeout := none }
  if now - s.lastHeartbeatResponse > HEARTBEAT_TIMEOUT then (s, [.closeSocket])
  else (s, [])

/-- `connectWebSocket` (App.tsx lines 145-265) up to handler
installation: no-op while a reconnection is in flight or the socket is
already open; otherwise clear pending timers, drop any stale socket and
create a new one.  The boolean reports whether a new socket was
created. -/
def connectWebSocket (s : AppState) : AppState × Bool :=
  if s.isReconnecting then (s, false)
  else if s.ws = some .opened then (s, false)
  else
    let s := { s with isReconnecting := true }
    let s := clearReconnectTimeout s
    let s := clearHeartbeatInterval s
    let s := { s with ws := none }
    ({ s with ws := some .connecting }, true)

/-- `ws.onopen` (App.tsx lines 171-178): mark connected, reset retries,
clear the error, drop the reentrancy flag and start the heartbeat. -/
def handleOpen (now : Int) (s : AppState) : AppState × List Effect :=
  let s := { s with ws := some .opened, isConnected := true, retryCount := 0,
                    error := none, isReconnecting := false }
  startHeartbeat now s

/-- Parsed protocol envelopes (App.tsx lines 188-224). -/
inductive ServerMsg
  | pong
  | connected
  | newToken (token : Option Token)
  | unknown (type : String)
deriving DecidableEq

/-- `ws.onmessage` (App.tsx lines 180-228).  `none` models a JSON parse
failure, which is caught and logged without touching the state.  Any
parsed message updates `lastHeartbeatResponse`; only `PONG` cancels the
pending heartbeat timeout; `NEW_TOKEN` with a payload triggers the full
HTTP refresh, without a payload it is logged and ignored. -/
def handleMessage (now : Int) (parsed : Option ServerMsg) (s : AppState) :
    AppState × List Effect :=
  match parsed with
  | none => (s, [])
  | some msg =>
    let s := { s with lastHeartbeatResponse := now }
    match msg with
    | .pong => ({ s with heartbeatTimeout := none }, [])
    | .newToken none => (s, [])
    | .newToken (some _) => (s, [.fetchTokens])
    | .connected => (s, [])
    | .unknown _ => (s, [])

/-- `ws.onerror` (App.tsx lines 230-234): mark disconnected and close
the socket (the close event then routes through `handleClose`). -/
def handleError (s : AppState) : AppState × List Effect :=
  ({ s with isConnected := false }, [.closeSocket])

/-- `ws.onclose` (App.tsx lines 236-256): stop the heartbeat, clear the
socket reference, then either schedule one reconnect after
`RETRY_INTERVAL` (when retries remain and none is in flight) or, once
retries are exhausted, surface the terminal error. -/
def handleClose (s : AppState) : AppState :=
  let s := { s with isConnected := false, ws := none }
  let s := clearHeartbeatInterval s
  if s.retryCount < MAX_RETRIES ∧ s.isReconnecting = false then
    let s := { s with isReconnecting := true }
    let s := clearReconnectTimeout s
    { s with reconnectTimer := some RETRY_INTERVAL }
  else if s.retryCount ≥ MAX_RETRIES then
    { s with error := some "Maximum reconnection attempts reached", isReconnecting := false }
  else s

/-- The reconnect-delay callback (App.tsx lines 246-250): increment the
retry count, drop the reentrancy flag and attempt a new connection. -/
def reconnectTimerFire (s : AppState) : AppState × Bool :=
  let s := { s with reconnectTimer := none, retryCount := s.retryCount + 1,
                    isReconnecting := false }
  connectWebSocket s

/-- `handleReconnectClick` (App.tsx lines 324-328): reset the retry
counter to 0 and call `connectWebSocket`. -/
def handleReconnectClick (s : AppState) : AppState × Bool :=
  connectWebSocket { s with retryCount := 0 }

/-! ### Token refresh (App.tsx `fetchTokens`) -/

/-- The possible outcomes of the `GET /api/tokens` call as `fetchTokens`
distinguishes them (App.tsx lines 119-127): non-2xx status
(`response.ok` false), a body whose `tokens` field is missing or not an
array, or a well-formed body. -/
inductive FetchResponse
  | notOk (status : Nat)
  | okRaw (tokens : Option (List Token))

/-- The store state touched by `fetchTokens`. -/
structure StoreState where
  tokens : List Token := []
  error : Option String := none
  loading : Bool := true
  initialLoadDone : Bool := false
deriving DecidableEq

/-- `if (!initialLoadDone.current) { setLoading(false); ... }` — run at
the end of both the success and the error path (App.tsx lines 131-134
and 138-141). -/
def finishInitialLoad (s : StoreState) : StoreState :=
  if s.initialLoadDone then s
  else { s with loading := false, initialLoadDone := true }

/-- `fetchTokens` (App.tsx lines 116-143) given the response: on a
non-2xx status or malformed body the thrown error is caught, surfaced
via `setError`, and the stored tokens stay untouched; only a well-formed
response replaces the collection. -/
def applyFetchTokens (resp : FetchResponse) (s : StoreState) : StoreState :=
  match resp with
  | .notOk status =>
    finishInitialLoad { s with error := some ("HTTP error! status: " ++ toString status) }
  | .okRaw none =>
    finishInitialLoad { s with error := some "Invalid API response format" }
  | .okRaw (some tokens) =>
    finishInitialLoad { s with tokens := tokens }

/-! ### Concrete records used by counterexamples and witnesses -/

/-- The scenario record of claim C4: `totalScans=100, honeypotFailures=0,
buyGas=50000, sellGas=50000, gpHolderCount=150, gpBuyTax=5, gpSellTax=5`. -/
def c4Token : Token :=
  { emptyToken with
      totalScans := some 100, honeypotFailures := some 0,
      buyGas := some 50000, sellGas := some 50000, gpHolderCount := some 150,
      gpBuyTax := 5, gpSellTax := 5 }

/-- A record with every risk flag false: the contract is open source and
none of the negative flags is set. -/
def allClearToken : Token := { emptyToken with gpIsOpenSource := true }

/-- A record with every risk flag true (not open source, and every
negative flag set). -/
def allRiskToken : Token :=
  { emptyToken with
      isHoneypot := true, gpIsBlacklisted := true,
      gpIsOpenSource := false, gpIsProxy := true, gpIsMintable := true,
      gpExternalCall := true, gpCannotBuy := true, gpCannotSellAll := true,
      gpTradingCooldown := true, gpTransferPausable := true,
      gpHiddenOwner := true, gpCanTakeBackOwnership := true,
      gpOwnerChangeBalance := true, gpAntiWhaleModifiable := true,
      gpSlippageModifiable := true, gpBuyTax := 20, gpSellTax := 20 }

/-! ### Claim theorems -/

/-- Claim C9: a NEW_TOKEN protocol message whose envelope lacks a token
payload is logged and ignored — no collection refresh is triggered and
no error is thrown (the handler is total and only updates the last-seen
timestamp); with a payload present a full HTTP refresh is invoked. -/
theorem newToken_routing :
    ∀ (now : Int) (s : AppState) (tk : Token),
      handleMessage now (some (.newToken none)) s =
        ({ s with lastHeartbeatResponse := now }, []) ∧
      handleMessage now (some (.newToken (some tk))) s =
        ({ s with lastHeartbeatResponse := now }, [Effect.fetchTokens]) := by
  intro now s tk
  exact ⟨rfl, rfl⟩

/-- Claim C10: a failed token refresh — non-2xx status or malformed body
— surfaces an error and retains the previously stored token collection
unchanged; the collection is replaced only by a successful, well-formed
response. -/
theorem fetch_error_retains_store :
    ∀ (s : StoreState) (status : Nat) (ts : List Token),
      (applyFetchTokens (.notOk status) s).tokens = s.tokens ∧
      (applyFetchTokens (.notOk status) s).error =
        some ("HTTP error! status: " ++ toString status) ∧
      (applyFetchTokens (.okRaw none) s).tokens = s.tokens ∧
      (applyFetchTokens (.okRaw none) s).error = some "Invalid API response format" ∧
      (applyFetchTokens (.okRaw (some ts)) s).tokens = ts ∧
      (applyFetchTokens (.okRaw (some ts)) s).error = s.error := by
  intro s status ts
  refine ⟨?_, ?_, ?_, ?_, ?_, ?_⟩ <;>
    simp only [applyFetchTokens, finishInitialLoad] <;> split <;> rfl

/-- Claim C4 fails on the code: for the scenario record the Market
Behavior sub-score is not 100 — `calculateMarketScore` is only the
honeypot-success ratio times 25 and has no gas-symmetry, holder-tier or
tax-tier bonuses. -/
theorem market_scenario_counterexample : tokenMarketScore c4Token ≠ 100 := by
  show ((100 - 0) / max 100 1) * 25 ≠ (100 : ℚ)
  rw [max_def]
  norm_num

/-- Claim C4 as amended: for a record with `totalScans=100` and
`honeypotFailures=0` the Market Behavior sub-score equals 25 — the
sub-score is only `((totalScans - honeypotFailures) / max(totalScans,1))
* 25`, independent of the gas, holder-count and tax fields. -/
theorem market_scenario_amended :
    tokenMarketScore c4Token = 25 ∧
    ∀ t : Token,
      tokenMarketScore { t with totalScans := some 100, honeypotFailures := some 0 } = 25 := by
  have hmax : max (100 : ℚ) 1 = 100 := by
    rw [max_def]
    norm_num
  constructor
  · show ((100 - 0) / max 100 1) * 25 = (25 : ℚ)
    rw [hmax]
    norm_num
  · intro t
    show ((100 - 0) / max 100 1) * 25 = (25 : ℚ)
    rw [hmax]
    norm_num

/-- Claim C5 fails on the code: the Contract Security sub-score of a
record with every risk flag false is not 100 — the code awards 25 for
`gpIsOpenSource` and nothing for the other three conditions. -/
theorem security_all_clear_counterexample : tokenSecurityScore allClearToken ≠ 100 := by
  decide

/-- Claim C5 as amended: the Contract Security sub-score is 25 when the
contract is open source and 0 otherwise, independently of the
hidden-owner, ownership-takeback, mintable and external-call flags; so
the all-clear record scores 25 and the all-risk record scores 0. -/
theorem security_score_amended :
    tokenSecurityScore allClearToken = 25 ∧
    tokenSecurityScore allRiskToken = 0 ∧
    ∀ t : Token,
      tokenSecurityScore { t with gpIsOpenSource := true } = 25 ∧
      tokenSecurityScore { t with gpIsOpenSource := false } = 0 := by
  refine ⟨by decide, by decide, ?_⟩
  intro t
  constructor <;> simp [tokenSecurityScore]

/-! ### Bounds of the four sub-scores -/

lemma liquidityScore_bounds (liq30 : Option ℚ) :
    0 ≤ calculateLiquidityScore liq30 ∧ calculateLiquidityScore liq30 ≤ 25 := by
  unfold calculateLiquidityScore
  rcases liq30 with _ | numLiq
  · norm_num
  · dsimp only
    split_ifs <;> norm_num

lemma growthScore_bounds (holderCount : Option ℚ) :
    0 ≤ calculateGrowthScore holderCount ∧ calculateGrowthScore holderCount ≤ 25 := by
  unfold calculateGrowthScore
  rcases holderCount with _ | numHolders
  · norm_num
  · dsimp only
    split_ifs <;> norm_num

lemma securityScore_bounds (t : Token) :
    0 ≤ tokenSecurityScore t ∧ tokenSecurityScore t ≤ 25 := by
  unfold tokenSecurityScore
  split_ifs <;> norm_num

lemma marketScore_bounds (t : Token) (h : WellFormedScans t) :
    0 ≤ tokenMarketScore t ∧ tokenMarketScore t ≤ 25 := by
  unfold tokenMarketScore calculateMarketScore
  unfold WellFormedScans at h
  rcases ht : t.totalScans with _ | numTotal <;>
    rcases hf : t.honeypotFailures with _ | numFailures
  · exact ⟨le_refl 0, show (0 : ℚ) ≤ 25 by norm_num⟩
  · exact ⟨le_refl 0, show (0 : ℚ) ≤ 25 by norm_num⟩
  · exact ⟨le_refl 0, show (0 : ℚ) ≤ 25 by norm_num⟩
  · rw [ht, hf] at h
    obtain ⟨hf0, hfle⟩ := h
    show 0 ≤ (numTotal - numFailures) / max numTotal 1 * 25 ∧
      (numTotal - numFailures) / max numTotal 1 * 25 ≤ 25
    have hden : (0 : ℚ) < max numTotal 1 := lt_of_lt_of_le one_pos (le_max_right _ _)
    have hnum0 : (0 : ℚ) ≤ numTotal - numFailures := by linarith
    have hnum1 : numTotal - numFailures ≤ max numTotal 1 :=
      le_trans (by linarith) (le_max_left _ _)
    have hdiv0 : (0 : ℚ) ≤ (numTotal - numFailures) / max numTotal 1 :=
      div_nonneg hnum0 hden.le
    have hdiv1 : (numTotal - numFailures) / max numTotal 1 ≤ 1 :=
      (div_le_one hden).mpr hnum1
    constructor
    · have := mul_nonneg hdiv0 (by norm_num : (0 : ℚ) ≤ 25)
      linarith
    · have := mul_le_mul_of_nonneg_right hdiv1 (by norm_num : (0 : ℚ) ≤ 25)
      linarith

/-- Claim C6: for every well-formed record (failure count between 0 and
the total scan count) the composite score equals the fixed weighted sum
of the four sub-scores and always lies in [0, 100]. -/
theorem composite_score_weighted_and_bounded :
    ∀ t : Token, WellFormedScans t →
      totalScore t = 0.15 * tokenMarketScore t + 0.40 * tokenSecurityScore t +
        0.25 * tokenLiquidityScore t + 0.20 * tokenGrowthScore t ∧
      0 ≤ totalScore t ∧ totalScore t ≤ 100 := by
  intro t h
  obtain ⟨hm0, hm1⟩ := marketScore_bounds t h
  obtain ⟨hs0, hs1⟩ := securityScore_bounds t
  obtain ⟨hl0, hl1⟩ := liquidityScore_bounds t.liq30
  obtain ⟨hg0, hg1⟩ := growthScore_bounds t.gpHolderCount
  unfold totalScore tokenLiquidityScore tokenGrowthScore at *
  refine ⟨by ring, by linarith, by linarith⟩

/-! ### Classification helpers for C7 -/

lemma len_pos_append (l₁ l₂ : List String) :
    0 < (l₁ ++ l₂).length ↔ 0 < l₁.length ∨ 0 < l₂.length := by
  rw [List.length_append]
  omega

lemma len_pos_ite (c : Prop) [Decidable c] (s : String) :
    0 < (if c then [s] else []).length ↔ c := by
  split <;> simp [*]

/-- The warning-reason list of the card is nonempty exactly when the
record is dangerous or carries one of the warning flags. -/
lemma getWarningReasons_pos (t : Token) :
    0 < (getWarningReasons t).length ↔ (tokenIsDangerous t || warningFlags t) = true := by
  unfold getWarningReasons tokenIsDangerous warningFlags
  simp only [len_pos_append, len_pos_ite]
  simp [or_assoc]

/-- The card classification agrees with the booleans of the filter
pipeline. -/
lemma securityLevel_eq (t : Token) :
    securityLevel t =
      (if tokenIsDangerous t then SecurityLevel.danger
       else if tokenHasWarnings t then SecurityLevel.warning else SecurityLevel.safe) := by
  have hcond : (t.isHoneypot || (t.gpIsBlacklisted && !t.gpIsAntiWhale)) = tokenIsDangerous t := rfl
  unfold securityLevel tokenHasWarnings
  rw [hcond]
  by_cases hd : tokenIsDangerous t
  · simp [hd]
  · rw [Bool.not_eq_true] at hd
    simp [getWarningReasons_pos, hd]

/-- Claim C7: the danger / warning / safe classification is a partition
— dangerous iff honeypot or (blacklisted and not anti-whale), warning
iff not dangerous and some risk flag holds, safe otherwise; the three
are mutually exclusive and exhaustive; and the classification used by
the filter pipeline coincides with the one computed for display. -/
theorem classification_partition :
    ∀ t : Token,
      tokenIsDangerous t = (t.isHoneypot || (t.gpIsBlacklisted && !t.gpIsAntiWhale)) ∧
      tokenHasWarnings t = (!tokenIsDangerous t && warningFlags t) ∧
      (tokenIsDangerous t && tokenHasWarnings t) = false ∧
      (tokenIsDangerous t && tokenIsSafe t) = false ∧
      (tokenHasWarnings t && tokenIsSafe t) = false ∧
      (tokenIsDangerous t || tokenHasWarnings t || tokenIsSafe t) = true ∧
      (securityLevel t = .danger ↔ tokenIsDangerous t = true) ∧
      (securityLevel t = .warning ↔ tokenHasWarnings t = true) ∧
      (securityLevel t = .safe ↔ tokenIsSafe t = true) := by
  intro t
  have hsl := securityLevel_eq t
  refine ⟨rfl, rfl, ?_, ?_, ?_, ?_, ?_, ?_, ?_⟩ <;>
    cases hd : tokenIsDangerous t <;> cases hw : warningFlags t <;>
      simp [hsl, tokenHasWarnings, tokenIsSafe, hd, hw]

/-! ### Sort-key semantics for C8 -/

/-- Replace the stored safety score of a honeypot record by 0
(the substitution that the safetyScore comparator performs on the fly,
TokenEventsList.tsx lines 209-210). -/
def forceHoneypotScoreZero (t : Token) : Token :=
  if t.isHoneypot then { t with safetyScore := some 0 } else t

lemma sortKey_forceZero (t : Token) :
    sortKey .safetyScore (forceHoneypotScoreZero t) = sortKey .safetyScore t := by
  unfold forceHoneypotScoreZero sortKey
  by_cases h : t.isHoneypot <;> simp [h]

lemma compareTokens_forceZero (filters : FilterState)
    (hf : filters.sortBy = .safetyScore) (a b : Token) :
    compareTokens filters (forceHoneypotScoreZero a) (forceHoneypotScoreZero b) =
      compareTokens filters a b := by
  unfold compareTokens
  rw [hf, sortKey_forceZero, sortKey_forceZero]

/-- Claim C8: sorting by the safetyScore key treats the effective score
of any honeypot record as 0 regardless of the stored value — the key of
a honeypot record is 0 for every stored score, replacing stored scores
of honeypots by 0 leaves the sorted order unchanged for both directions
— and every other key reads its numeric field with missing values
defaulting to 0. -/
theorem safetyScore_sort_semantics :
    ∀ (t : Token) (q : Option ℚ) (dir : SortDirection) (l : List Token),
      sortKey .safetyScore { t with isHoneypot := true, safetyScore := q } = 0 ∧
      sortKey .records t = t.totalScans.getD 0 ∧
      sortKey .age t = t.ageHours.getD 0 ∧
      sortKey .creationTime t = t.creationTime.getD 0 ∧
      sortKey .holders t = t.gpHolderCount.getD 0 ∧
      sortKey .liquidity t = t.liq30.getD 0 ∧
      sortTokens { sortBy := .safetyScore, sortDirection := dir }
          (l.map forceHoneypotScoreZero) =
        (sortTokens { sortBy := .safetyScore, sortDirection := dir } l).map
          forceHoneypotScoreZero := by
  intro t q dir l
  refine ⟨by simp [sortKey], rfl, rfl, rfl, rfl, rfl, ?_⟩
  unfold sortTokens
  exact (List.map_insertionSort _ _ forceHoneypotScoreZero l
    (fun a _ b _ => by
      rw [compareTokens_forceZero { sortBy := .safetyScore, sortDirection := dir } rfl])).symm

/-- Witness for C6 at a concrete well-formed record. -/
theorem composite_score_witness :
    WellFormedScans c4Token ∧
      totalScore c4Token = 0.15 * tokenMarketScore c4Token +
        0.40 * tokenSecurityScore c4Token + 0.25 * tokenLiquidityScore c4Token +
        0.20 * tokenGrowthScore c4Token ∧
      0 ≤ totalScore c4Token ∧ totalScore c4Token ≤ 100 :=
  ⟨by decide, composite_score_weighted_and_bounded c4Token (by decide)⟩

/-! ### Reconnection policy (C2) and heartbeat protocol (C3) -/

/-- Claim C2: when the connection closes with retry count below
`MAX_RETRIES` and no reconnection in flight, exactly one reconnect is
scheduled after `RETRY_INTERVAL` (5s), the retry count is unchanged at
scheduling time and incremented on the scheduled attempt, which then
creates a new socket; once the retry count has reached `MAX_RETRIES`,
the terminal error is surfaced and no reconnect is scheduled; a manual
reconnect always resets the retry counter to 0 and, when no reconnection
is in flight and the socket is not already open, immediately creates a
new connection; a transport error routes into the close path by closing
the socket. -/
theorem reconnect_policy :
    ∀ s₁ s₂ s₃ s₄ : AppState,
      (s₁.retryCount < MAX_RETRIES → s₁.isReconnecting = false →
        (handleClose s₁).reconnectTimer = some RETRY_INTERVAL ∧
        (handleClose s₁).isReconnecting = true ∧
        (handleClose s₁).retryCount = s₁.retryCount ∧
        (handleClose s₁).error = s₁.error ∧
        (reconnectTimerFire (handleClose s₁)).1.retryCount = s₁.retryCount + 1 ∧
        (reconnectTimerFire (handleClose s₁)).2 = true) ∧
      (MAX_RETRIES ≤ s₂.retryCount →
        (handleClose s₂).error = some "Maximum reconnection attempts reached" ∧
        (handleClose s₂).reconnectTimer = s₂.reconnectTimer ∧
        (handleClose s₂).isReconnecting = false) ∧
      ((handleReconnectClick s₃).1.retryCount = 0) ∧
      (s₃.isReconnecting = false → s₃.ws ≠ some .opened →
        (handleReconnectClick s₃).2 = true ∧
        (handleReconnectClick s₃).1.ws = some .connecting) ∧
      ((handleError s₄).2 = [Effect.closeSocket]) := by
  intro s₁ s₂ s₃ s₄
  refine ⟨?_, ?_, ?_, ?_, rfl⟩
  · intro h1 h2
    have hcond : s₁.retryCount < MAX_RETRIES ∧ s₁.isReconnecting = false := ⟨h1, h2⟩
    simp [handleClose, clearHeartbeatInterval, clearReconnectTimeout, hcond,
      reconnectTimerFire, connectWebSocket]
  · intro h2
    have hnot : ¬(s₂.retryCount < MAX_RETRIES ∧ s₂.isReconnecting = false) := by
      intro hc
      exact absurd h2 (not_le.mpr hc.1)
    simp [handleClose, clearHeartbeatInterval, clearReconnectTimeout, hnot, h2]
  · unfold handleReconnectClick connectWebSocket clearReconnectTimeout clearHeartbeatInterval
    split <;> simp_all
    split <;> simp_all
  · intro h1 h2
    unfold handleReconnectClick connectWebSocket clearReconnectTimeout clearHeartbeatInterval
    simp [h1, h2]

/-- Witness for C2: the three reconnect scenarios evaluated at concrete
states. -/
theorem reconnect_policy_witness :
    (handleClose initialAppState).reconnectTimer = some RETRY_INTERVAL ∧
    (handleClose { initialAppState with retryCount := 5 }).error =
      some "Maximum reconnection attempts reached" ∧
    (handleReconnectClick initialAppState).1.retryCount = 0 ∧
    (handleReconnectClick initialAppState).2 = true := by
  have h := reconnect_policy initialAppState { initialAppState with retryCount := 5 }
    initialAppState initialAppState
  exact ⟨(h.1 (by decide) (by decide)).1, (h.2.1 (by decide)).1, h.2.2.1,
    (h.2.2.2.1 (by decide) (by decide)).1⟩

/-- A state with a pending heartbeat timeout, used to exhibit that a
non-PONG message does not cancel it. -/
def pendingTimeoutState : AppState :=
  { initialAppState with ws := some .opened, heartbeatTimeout := some HEARTBEAT_TIMEOUT }

/-- Claim C3 fails on the code: receiving an inbound message that is not
a PONG (here the CONNECTED acknowledgment) does not cancel the pending
heartbeat timeout — only the PONG case clears it. -/
theorem nonpong_keeps_timeout_counterexample :
    (handleMessage 1000 (some .connected) pendingTimeoutState).1.heartbeatTimeout ≠ none := by
  decide

/-- Claim C3 as amended: while the connection is open each heartbeat
tick sends one PING carrying the current timestamp and arms the
5-second timeout, the interval is armed at 15 seconds; receipt of any
parsed inbound message resets the last-seen timestamp, but only a PONG
cancels the pending timeout; a parse failure leaves the state untouched;
message receipt never closes the socket; when the timeout fires it is
consumed, and it force-closes the connection exactly when the elapsed
time since last-seen exceeds the 5-second budget. -/
theorem heartbeat_protocol_amended :
    ∀ (s : AppState) (now : Int) (m : ServerMsg),
      ((handleMessage now (some m) s).1.lastHeartbeatResponse = now) ∧
      ((handleMessage now (some .pong) s).1.heartbeatTimeout = none) ∧
      (handleMessage now none s = (s, [])) ∧
      (Effect.closeSocket ∉ (handleMessage now (some m) s).2) ∧
      ((startHeartbeat now s).1.heartbeatInterval = some HEARTBEAT_INTERVAL) ∧
      (s.ws = some .opened →
        heartbeatIntervalTick now s =
          ({ s with heartbeatTimeout := some HEARTBEAT_TIMEOUT }, [.sendPing now]) ∧
        startHeartbeat now s =
          ({ s with heartbeatInterval := some HEARTBEAT_INTERVAL,
                    heartbeatTimeout := some HEARTBEAT_TIMEOUT }, [.sendPing now])) ∧
      (s.ws ≠ some .opened → (heartbeatIntervalTick now s).2 = []) ∧
      (now - s.lastHeartbeatResponse > HEARTBEAT_TIMEOUT →
        heartbeatTimeoutFire now s = ({ s with heartbeatTimeout := none }, [.closeSocket])) ∧
      (now - s.lastHeartbeatResponse ≤ HEARTBEAT_TIMEOUT →
        heartbeatTimeoutFire now s = ({ s with heartbeatTimeout := none }, [])) := by
  intro s now m
  refine ⟨?_, rfl, rfl, ?_, ?_, ?_, ?_, ?_, ?_⟩
  · cases m with
    | pong => rfl
    | connected => rfl
    | newToken tk => cases tk <;> rfl
    | unknown ty => rfl
  · cases m with
    | pong => simp [handleMessage]
    | connected => simp [handleMessage]
    | newToken tk => cases tk <;> simp [handleMessage]
    | unknown ty => simp [handleMessage]
  · unfold startHeartbeat sendHeartbeat clearHeartbeatInterval
    dsimp only
    split <;> rfl
  · intro hws
    unfold heartbeatIntervalTick startHeartbeat sendHeartbeat clearHeartbeatInterval
    rw [if_pos hws]
    constructor
    · rfl
    · rw [if_pos hws]
  · intro hws
    unfold heartbeatIntervalTick sendHeartbeat
    rw [if_neg hws]
  · intro hgt
    unfold heartbeatTimeoutFire
    rw [if_pos hgt]
  · intro hle
    unfold heartbeatTimeoutFire
    rw [if_neg (not_lt.mpr hle)]

/-- Witness for the amended C3 at concrete states: an open socket at
tick time, a timeout firing past the budget and one firing within it. -/
theorem heartbeat_protocol_witness :
    (handleMessage 1000 (some .pong) pendingTimeoutState).1.heartbeatTimeout = none ∧
    heartbeatIntervalTick 2000 pendingTimeoutState =
      ({ pendingTimeoutState with heartbeatTimeout := some HEARTBEAT_TIMEOUT },
        [.sendPing 2000]) ∧
    heartbeatTimeoutFire 6000 initialAppState =
      ({ initialAppState with heartbeatTimeout := none }, [.closeSocket]) ∧
    heartbeatTimeoutFire 4000 initialAppState =
      ({ initialAppState with heartbeatTimeout := none }, []) := by
  have h1 := heartbeat_protocol_amended pendingTimeoutState 1000 ServerMsg.pong
  have h2 := heartbeat_protocol_amended pendingTimeoutState 2000 ServerMsg.pong
  have h3 := heartbeat_protocol_amended initialAppState 6000 ServerMsg.pong
  have h4 := heartbeat_protocol_amended initialAppState 4000 ServerMsg.pong
  exact ⟨h1.2.1, (h2.2.2.2.2.2.1 (by decide)).1, h3.2.2.2.2.2.2.2.1 (by decide),
    h4.2.2.2.2.2.2.2.2 (by decide)⟩

/-! ### Pipeline order (C1) -/

/-- A record with 5 holders. -/
def tokenA : Token := { emptyToken with name := "A", gpHolderCount := some 5 }

/-- A record with 1 holder. -/
def tokenB : Token := { emptyToken with name := "B", gpHolderCount := some 1 }

/-- Sort by holders ascending, keep at most one record. -/
def c1Config : FilterState :=
  { sortBy := .holders, sortDirection := .asc, maxRecords := 1 }

/-- Claim C1 fails on the code: with two records and `maxRecords = 1`,
sorting by holders ascending, the pipeline keeps the first record of
the unsorted filtered list and then sorts, so the visible set differs
from the first `maxRecords` elements of the full filtered-and-sorted
sequence. -/
theorem truncation_order_counterexample :
    visibleTokens c1Config [tokenA, tokenB] ≠ specVisibleTokens c1Config [tokenA, tokenB] := by
  have hcmp : ¬ (compareTokens c1Config tokenA tokenB ≤ 0) := by
    show ¬ ((1 : ℚ) * (5 - 1) ≤ 0)
    norm_num
  have h1 : visibleTokens c1Config [tokenA, tokenB] = [tokenA] := rfl
  have h2 : specVisibleTokens c1Config [tokenA, tokenB] = [tokenB] := by
    show (sortTokens c1Config [tokenA, tokenB]).take 1 = [tokenB]
    unfold sortTokens
    simp [List.insertionSort, List.orderedInsert, hcmp]
  rw [h1, h2]
  intro h
  exact absurd (List.head_eq_of_cons_eq h) (by decide)

lemma compareTokens_total (filters : FilterState) :
    ∀ a b : Token, compareTokens filters a b ≤ 0 ∨ compareTokens filters b a ≤ 0 := by
  intro a b
  have hswap : compareTokens filters b a = -compareTokens filters a b := by
    unfold compareTokens
    ring
  rcases le_total (compareTokens filters a b) 0 with h | h
  · exact Or.inl h
  · refine Or.inr ?_
    rw [hswap]
    linarith

lemma compareTokens_trans (filters : FilterState) :
    ∀ a b c : Token, compareTokens filters a b ≤ 0 → compareTokens filters b c ≤ 0 →
      compareTokens filters a c ≤ 0 := by
  intro a b c hab hbc
  have hsum : compareTokens filters a c =
      compareTokens filters a b + compareTokens filters b c := by
    unfold compareTokens
    ring
  rw [hsum]
  linarith

/-- Claim C1 as amended: truncation to `maxRecords` is a prefix cut
applied after filtering but before sorting — the final visible set is
the sort, by the configured comparator, of the first `maxRecords`
elements of the filtered sequence: it equals that sort, it is a
permutation of those first `maxRecords` filtered elements, its size is
at most `maxRecords`, and it is ordered by the comparator. -/
theorem truncate_then_sort_amended :
    ∀ (filters : FilterState) (tokens : List Token),
      visibleTokens filters tokens =
        sortTokens filters ((tokens.filter (filterPredicate filters)).take filters.maxRecords) ∧
      (visibleTokens filters tokens).Perm
        ((tokens.filter (filterPredicate filters)).take filters.maxRecords) ∧
      (visibleTokens filters tokens).length ≤ filters.maxRecords ∧
      (visibleTokens filters tokens).Pairwise
        (fun a b => compareTokens filters a b ≤ 0) := by
  intro filters tokens
  haveI : IsTotal Token (fun a b => compareTokens filters a b ≤ 0) :=
    ⟨compareTokens_total filters⟩
  haveI : IsTrans Token (fun a b => compareTokens filters a b ≤ 0) :=
    ⟨compareTokens_trans filters⟩
  refine ⟨rfl, List.perm_insertionSort _ _, ?_, List.sorted_insertionSort _ _⟩
  show (sortTokens filters (filterTokens filters tokens)).length ≤ filters.maxRecords
  unfold sortTokens filterTokens
  rw [List.length_insertionSort]
  exact List.length_take_le _ _
